import Mathlib

/-!
Shallow embedding of the rusty-gl wrapper (src/src/buffers.rs, src/src/enums.rs).

Each wrapper function is a thin pass-through to one OpenGL driver call.  We
model a wrapper call as the driver call it issues, with the exact arguments
the Rust code computes (`GLCall`).  Calls that dereference the first element
of their input slice (`&data[0]`) are fallible: indexing an empty slice in
Rust panics, so those wrappers return an `Except` whose error branch is the
panic.  A driver-state semantics `applyCall` models the effect of the issued
call on the GL context (bindings, buffer stores, attribute configuration),
following the behaviour of the underlying GL entry points.

Machine integers: GLuint handles and bytes are `Nat`; GLsizeiptr/GLintptr
(`isize`) arguments are `Int`.
-/

namespace RustyGl

/-- The gl crate constant gl::ARRAY_BUFFER (native code of GL_ARRAY_BUFFER). -/
def ARRAY_BUFFER : Nat := 0x8892

/-- The gl crate constant gl::STATIC_DRAW (native code of GL_STATIC_DRAW). -/
def STATIC_DRAW : Nat := 0x88E4

/-- The gl crate constant gl::FLOAT (native code of GL_FLOAT). -/
def FLOAT : Nat := 0x1406

/-- enums.rs: `pub enum GLTarget { ArrayBuffer = gl::ARRAY_BUFFER }`. -/
inductive GLTarget where
  | ArrayBuffer
  deriving DecidableEq, Repr

/-- The `target as u32` cast: the repr(u32) discriminant of the variant. -/
def GLTarget.toNat : GLTarget → Nat
  | .ArrayBuffer => ARRAY_BUFFER

/-- enums.rs: `pub enum GLUsage { StaticDraw = gl::STATIC_DRAW }`. -/
inductive GLUsage where
  | StaticDraw
  deriving DecidableEq, Repr

/-- The `usage as u32` cast: the repr(u32) discriminant of the variant. -/
def GLUsage.toNat : GLUsage → Nat
  | .StaticDraw => STATIC_DRAW

/-- Modelled from the spec: the ElementType enumeration ("identifies the
scalar type of vertex-attribute components (e.g., floating point)").
buffers.rs refers to it as `enums::Type`, but its definition is not among
the files under src/, so we model the one example the spec gives. -/
inductive GLType where
  | Float
  deriving DecidableEq, Repr

/-- The `type_ as GLenum` cast. -/
def GLType.toNat : GLType → Nat
  | .Float => FLOAT

/-- A Rust element type `T` as seen by the upload functions: its
`mem::size_of::<T>()` and its byte representation in memory. -/
structure ElemType (τ : Type) where
  size : Nat
  encode : τ → List Nat
  encode_len : ∀ x, (encode x).length = size

/-- The bytes of a slice `&[T]` laid out contiguously in memory, starting
at the address of its first element. -/
def bytesOf {τ : Type} (E : ElemType τ) (data : List τ) : List Nat :=
  (data.map E.encode).flatten

/-- The single-byte element type (size_of = 1). -/
def byteElem : ElemType Nat where
  size := 1
  encode := fun b => [b % 256]
  encode_len := fun _ => rfl

/-- One driver call, with the exact arguments the wrapper passes.  For the
two upload calls, `src` is the memory readable from the data pointer the
wrapper passed (the driver reads `size` bytes starting there). -/
inductive GLCall where
  | bindBuffer (target name : Nat)
  | bindVertexArray (name : Nat)
  | enableVertexAttribArray (index : Nat)
  | vertexAttribPointer (index : Nat) (size : Int) (typeCode : Nat)
      (normalised : Nat) (stride : Int) (pointer : Nat)
  | bufferData (target : Nat) (size : Int) (src : List Nat) (usage : Nat)
  | bufferSubData (target : Nat) (offset : Int) (size : Int) (src : List Nat)
  deriving DecidableEq, Repr

/-- The size argument handed to the driver by an upload call. -/
def callSizeArg : GLCall → Int
  | .bufferData _ size _ _ => size
  | .bufferSubData _ _ size _ => size
  | _ => 0

/-- The pointer/offset argument handed to the driver by a
glVertexAttribPointer call. -/
def callPointerArg : GLCall → Nat
  | .vertexAttribPointer _ _ _ _ _ p => p
  | _ => 0

/-- Vertex-attribute configuration recorded by glVertexAttribPointer. -/
structure AttribConfig where
  size : Int
  typeCode : Nat
  normalised : Nat
  stride : Int
  buffer : Nat
  pointer : Nat
  deriving DecidableEq, Repr

/-- The driver context state touched by the wrapped calls: the buffer
binding per target code, each buffer name's data store, the vertex-array
binding, per-index attribute state, and the fresh-name supplies. -/
structure DriverState where
  bufferBinding : Nat → Nat
  stores : Nat → List Nat
  vertexArrayBinding : Nat
  enabledAttribs : Nat → Bool
  attribs : Nat → Option AttribConfig
  nextBufferName : Nat
  nextArrayName : Nat

/-- Driver semantics of one call.  glBufferData replaces the store of the
buffer bound at `target` with the `size` bytes read from the source
pointer; glBufferSubData overwrites bytes [offset, offset+size) of that
store in place; glVertexAttribPointer records the configuration together
with the current ARRAY_BUFFER binding and the passed pointer. -/
def applyCall (s : DriverState) : GLCall → DriverState
  | .bindBuffer target name =>
      { s with bufferBinding := fun t => if t = target then name else s.bufferBinding t }
  | .bindVertexArray name =>
      { s with vertexArrayBinding := name }
  | .enableVertexAttribArray index =>
      { s with enabledAttribs := fun i => if i = index then true else s.enabledAttribs i }
  | .vertexAttribPointer index size typeCode normalised stride pointer =>
      { s with attribs := fun i =>
          (if i = index then
            some (AttribConfig.mk size typeCode normalised stride
              (s.bufferBinding ARRAY_BUFFER) pointer)
          else s.attribs i) }
  | .bufferData target size src _usage =>
      { s with stores := fun n =>
          (if n = s.bufferBinding target then
            src.take size.toNat
          else s.stores n) }
  | .bufferSubData target offset size src =>
      { s with stores := fun n =>
          (if n = s.bufferBinding target then
            (s.stores (s.bufferBinding target)).take offset.toNat
              ++ src.take size.toNat
              ++ (s.stores (s.bufferBinding target)).drop (offset.toNat + size.toNat)
          else s.stores n) }

/-- buffers.rs bind_buffer: `gl::BindBuffer(target as u32, buffer.0)`. -/
def bind_buffer (target : GLTarget) (buffer : Nat) : GLCall :=
  .bindBuffer target.toNat buffer

/-- buffers.rs unbind_buffer: `gl::BindBuffer(target as u32, 0)`. -/
def unbind_buffer (target : GLTarget) : GLCall :=
  .bindBuffer target.toNat 0

/-- buffers.rs bind_vertex_array: `gl::BindVertexArray(array.0)`. -/
def bind_vertex_array (array : Nat) : GLCall :=
  .bindVertexArray array

/-- buffers.rs enable_vertex_attrib_array. -/
def enable_vertex_attrib_array (index : Nat) : GLCall :=
  .enableVertexAttribArray index

/-- buffers.rs vertex_attrib_pointer: passes `normalised as GLboolean`
(true = 1) and the hard-coded `ptr::null()` (address 0) as the last
argument. -/
def vertex_attrib_pointer (index : Nat) (size : Int) (ty : GLType)
    (normalised : Bool) (stride : Int) : GLCall :=
  .vertexAttribPointer index size ty.toNat (if normalised then 1 else 0) stride 0

/-- buffers.rs buffer_data: computes `data.len() * mem::size_of::<T>()`
as the size and passes `mem::transmute(&data[0])`, the address of the
first element, as the source pointer.  Indexing `data[0]` on an empty
slice panics in Rust, modelled as the error branch.  The driver reads
exactly `size` bytes from the pointer, i.e. the slice's own bytes. -/
def buffer_data {τ : Type} (E : ElemType τ) (target : GLTarget)
    (data : List τ) (usage : GLUsage) : Except String GLCall :=
  match data with
  | [] => .error "index out of bounds: the len is 0 but the index is 0"
  | _ :: _ =>
      .ok (.bufferData target.toNat ((data.length * E.size : Nat) : Int)
        (bytesOf E data) usage.toNat)

/-- buffers.rs buffer_sub_data: forwards `offset` and `size` untouched
and passes `mem::transmute(&data[0])` as the source pointer; again
`data[0]` on an empty slice panics.  Since the caller-supplied `size`
may exceed the slice's byte length, the memory readable from the
pointer is the slice's bytes followed by whatever bytes `tailMem` sit
after them. -/
def buffer_sub_data {τ : Type} (E : ElemType τ) (target : GLTarget)
    (offset size : Int) (data : List τ) (tailMem : List Nat) :
    Except String GLCall :=
  match data with
  | [] => .error "index out of bounds: the len is 0 but the index is 0"
  | _ :: _ =>
      .ok (.bufferSubData target.toNat offset size (bytesOf E data ++ tailMem))

/-- Fresh names a glGen* call hands out: count consecutive names from the
supply. -/
def glGenNames (next count : Nat) : List Nat :=
  (List.range count).map (next + ·)

/-- buffers.rs gen_vertex_arrays: `gl::GenVertexArrays(count, &mut (*arrays).0)`.
The driver writes `count` fresh names into the caller's region, starting
at its first slot.  Returns the new driver state and the region's new
contents. -/
def gen_vertex_arrays (s : DriverState) (count : Nat) (region : List Nat) :
    DriverState × List Nat :=
  ({ s with nextArrayName := s.nextArrayName + count },
   glGenNames s.nextArrayName count ++ region.drop count)

/-- buffers.rs gen_vertex_array: `let mut vao = VAO(0);
gen_vertex_arrays(1, &mut vao); vao`. -/
def gen_vertex_array (s : DriverState) : DriverState × Nat :=
  let r := gen_vertex_arrays s 1 [0]
  (r.1, r.2.headD 0)

/-- buffers.rs gen_buffers: `gl::GenBuffers(count, &mut (*buffers).0)`. -/
def gen_buffers (s : DriverState) (count : Nat) (region : List Nat) :
    DriverState × List Nat :=
  ({ s with nextBufferName := s.nextBufferName + count },
   glGenNames s.nextBufferName count ++ region.drop count)

/-- buffers.rs gen_buffer: `let mut vbo = Buffer(0);
gen_buffers(1, &mut vbo); vbo`. -/
def gen_buffer (s : DriverState) : DriverState × Nat :=
  let r := gen_buffers s 1 [0]
  (r.1, r.2.headD 0)

/-- glDeleteBuffers semantics: the named buffer objects are released
(their stores emptied).  The name array is a read-only input to the
driver (const GLuint pointer): the driver never writes through it. -/
def glDeleteBufferNames (s : DriverState) (names : List Nat) : DriverState :=
  { s with stores := fun n => if n ∈ names then [] else s.stores n }

/-- glDeleteVertexArrays semantics: a deleted array that is currently
bound becomes unbound (binding reset to 0); the name array is read-only. -/
def glDeleteArrayNames (s : DriverState) (names : List Nat) : DriverState :=
  { s with vertexArrayBinding :=
      if s.vertexArrayBinding ∈ names then 0 else s.vertexArrayBinding }

/-- buffers.rs delete_buffers: `gl::DeleteBuffers(count, &mut (*buffers).0)`.
The driver reads `count` names from the caller's region and releases
them; the region's contents after the call are returned (unchanged,
since DeleteBuffers takes a const pointer). -/
def delete_buffers (s : DriverState) (count : Nat) (region : List Nat) :
    DriverState × List Nat :=
  (glDeleteBufferNames s (region.take count), region)

/-- buffers.rs delete_buffer: takes the handle by value (a copy) and
passes `&buffer.0`; returns the handle the caller's variable still
holds afterwards. -/
def delete_buffer (s : DriverState) (buffer : Nat) : DriverState × Nat :=
  (glDeleteBufferNames s [buffer], buffer)

/-- buffers.rs delete_vertex_arrays. -/
def delete_vertex_arrays (s : DriverState) (count : Nat) (region : List Nat) :
    DriverState × List Nat :=
  (glDeleteArrayNames s (region.take count), region)

/-- buffers.rs delete_vertex_array: `delete_vertex_arrays(1, array)`. -/
def delete_vertex_array (s : DriverState) (region : List Nat) :
    DriverState × List Nat :=
  delete_vertex_arrays s 1 region

/-- A sample driver state used to instantiate theorems at concrete
inputs: buffer 5 is bound at every target and holds four bytes. -/
def sampleState : DriverState where
  bufferBinding := fun _ => 5
  stores := fun n => if n = 5 then [10, 20, 30, 40] else []
  vertexArrayBinding := 0
  enabledAttribs := fun _ => false
  attribs := fun _ => none
  nextBufferName := 1
  nextArrayName := 1

theorem bytesOf_length {τ : Type} (E : ElemType τ) (data : List τ) :
    (bytesOf E data).length = data.length * E.size := by
  induction data with
  | nil => simp [bytesOf]
  | cons x xs ih =>
      simp only [bytesOf, List.map_cons, List.flatten_cons, List.length_append,
        List.length_cons] at ih ⊢
      rw [E.encode_len, ih, Nat.succ_mul]
      omega

theorem applyCall_bufferData_stores (s : DriverState) (target : Nat) (size : Int)
    (src : List Nat) (usage : Nat) :
    (applyCall s (.bufferData target size src usage)).stores (s.bufferBinding target)
      = src.take size.toNat := by
  simp [applyCall]

theorem applyCall_bufferSubData_stores (s : DriverState) (target : Nat)
    (offset size : Int) (src : List Nat) :
    (applyCall s (.bufferSubData target offset size src)).stores (s.bufferBinding target)
      = (s.stores (s.bufferBinding target)).take offset.toNat
        ++ src.take size.toNat
        ++ (s.stores (s.bufferBinding target)).drop (offset.toNat + size.toNat) := by
  simp [applyCall]

theorem writeRange_length (l w : List Nat) (O M : Nat) (hw : w.length = M)
    (hcap : O + M ≤ l.length) :
    (l.take O ++ w ++ l.drop (O + M)).length = l.length := by
  simp only [List.length_append, List.length_take, List.length_drop, hw]
  omega

theorem writeRange_getD_left (l w d2 : List Nat) (O i : Nat)
    (hO : O ≤ l.length) (hi : i < O) :
    (l.take O ++ w ++ d2).getD i 0 = l.getD i 0 := by
  have h1 : i < (l.take O).length := by
    simp only [List.length_take]
    omega
  have h2 : i < (l.take O ++ w).length := by
    simp only [List.length_append]
    omega
  rw [List.getD_append _ _ _ _ h2, List.getD_append _ _ _ _ h1,
    List.getD_eq_getElem?_getD, List.getElem?_take, if_pos hi,
    ← List.getD_eq_getElem?_getD]

theorem writeRange_getD_right (l w : List Nat) (O M i : Nat) (hw : w.length = M)
    (hcap : O + M ≤ l.length) (hi : O + M ≤ i) :
    (l.take O ++ w ++ l.drop (O + M)).getD i 0 = l.getD i 0 := by
  have hlen : (l.take O ++ w).length = O + M := by
    simp only [List.length_append, List.length_take, hw]
    omega
  rw [List.getD_eq_getElem?_getD, List.getD_eq_getElem?_getD,
    List.getElem?_append_right (by omega : (l.take O ++ w).length ≤ i), hlen,
    List.getElem?_drop]
  have hidx : O + M + (i - (O + M)) = i := by omega
  rw [hidx]

/-- Claim C1: for every element type, target and usage, uploading buffer
data with an empty element sequence is a defined failure: the dereference
of the first element (`data[0]`) reaches the error branch of the
embedding, so no driver call is issued and the operation does not
silently proceed. -/
theorem buffer_data_empty_is_defined_failure (τ : Type) (E : ElemType τ)
    (target : GLTarget) (usage : GLUsage) :
    ∃ msg, buffer_data E target ([] : List τ) usage = Except.error msg :=
  ⟨_, rfl⟩

/-- Claim C2: for every non-empty sequence of K elements of S bytes each,
buffer_data passes the driver a size of exactly K*S bytes
(data.len() * size_of T), and applying the issued call replaces the
contents of the buffer bound at the target — in any prior driver state —
with exactly the K*S bytes of the sequence. -/
theorem buffer_data_replaces_with_exact_size (τ : Type) (E : ElemType τ)
    (target : GLTarget) (usage : GLUsage) (data : List τ) (s : DriverState)
    (h : data ≠ []) :
    ∃ c, buffer_data E target data usage = Except.ok c ∧
      callSizeArg c = ((data.length * E.size : Nat) : Int) ∧
      (applyCall s c).stores (s.bufferBinding target.toNat) = bytesOf E data ∧
      ((applyCall s c).stores (s.bufferBinding target.toNat)).length
        = data.length * E.size := by
  cases data with
  | nil => exact absurd rfl h
  | cons x xs =>
      have hstore :
          (applyCall s (GLCall.bufferData target.toNat
              (((x :: xs).length * E.size : Nat) : Int)
              (bytesOf E (x :: xs)) usage.toNat)).stores
            (s.bufferBinding target.toNat) = bytesOf E (x :: xs) := by
        rw [applyCall_bufferData_stores, Int.toNat_natCast]
        exact List.take_of_length_le (le_of_eq (bytesOf_length E (x :: xs)))
      exact ⟨_, rfl, rfl, hstore, by rw [hstore, bytesOf_length]⟩

theorem buffer_data_replaces_with_exact_size_witness :
    ([1, 2, 3] : List Nat) ≠ [] ∧
    ∃ c, buffer_data byteElem GLTarget.ArrayBuffer [1, 2, 3] GLUsage.StaticDraw
        = Except.ok c ∧
      callSizeArg c = ((([1, 2, 3] : List Nat).length * byteElem.size : Nat) : Int) ∧
      (applyCall sampleState c).stores
          (sampleState.bufferBinding GLTarget.ArrayBuffer.toNat)
        = bytesOf byteElem [1, 2, 3] ∧
      ((applyCall sampleState c).stores
          (sampleState.bufferBinding GLTarget.ArrayBuffer.toNat)).length
        = ([1, 2, 3] : List Nat).length * byteElem.size :=
  ⟨by decide,
   buffer_data_replaces_with_exact_size Nat byteElem GLTarget.ArrayBuffer
     GLUsage.StaticDraw [1, 2, 3] sampleState (by decide)⟩

/-- Claim C3: for every offset O and size M with O+M within the current
capacity of the buffer bound at the target, and every non-empty data
sequence (with enough readable bytes), buffer_sub_data issues a call whose
effect keeps the buffer's length unchanged (no reallocation), leaves every
byte outside [O, O+M) of that buffer unchanged, and leaves every other
buffer's store untouched. -/
theorem buffer_sub_data_frame (τ : Type) (E : ElemType τ) (target : GLTarget)
    (offset size : Int) (data : List τ) (tailMem : List Nat) (s : DriverState)
    (hne : data ≠ []) (hoff : 0 ≤ offset) (hsize : 0 ≤ size)
    (hcap : offset.toNat + size.toNat
      ≤ (s.stores (s.bufferBinding target.toNat)).length)
    (hmem : size.toNat ≤ (bytesOf E data ++ tailMem).length) :
    ∃ c, buffer_sub_data E target offset size data tailMem = Except.ok c ∧
      ((applyCall s c).stores (s.bufferBinding target.toNat)).length
        = (s.stores (s.bufferBinding target.toNat)).length ∧
      (∀ i : Nat, i < offset.toNat →
        ((applyCall s c).stores (s.bufferBinding target.toNat)).getD i 0
          = (s.stores (s.bufferBinding target.toNat)).getD i 0) ∧
      (∀ i : Nat, offset.toNat + size.toNat ≤ i →
        ((applyCall s c).stores (s.bufferBinding target.toNat)).getD i 0
          = (s.stores (s.bufferBinding target.toNat)).getD i 0) ∧
      (∀ n : Nat, n ≠ s.bufferBinding target.toNat →
        (applyCall s c).stores n = s.stores n) := by
  cases data with
  | nil => exact absurd rfl hne
  | cons x xs =>
      have hw : ((bytesOf E (x :: xs) ++ tailMem).take size.toNat).length
          = size.toNat := by
        simp only [List.length_take]
        omega
      refine ⟨_, rfl, ?_, ?_, ?_, ?_⟩
      · rw [applyCall_bufferSubData_stores]
        exact writeRange_length _ _ _ _ hw hcap
      · intro i hi
        rw [applyCall_bufferSubData_stores]
        exact writeRange_getD_left _ _ _ _ i (by omega) hi
      · intro i hi
        rw [applyCall_bufferSubData_stores]
        exact writeRange_getD_right _ _ _ _ i hw hcap hi
      · intro n hn
        simp only [applyCall]
        exact if_neg hn

theorem buffer_sub_data_frame_witness :
    (([9] : List Nat) ≠ [] ∧ (0 : Int) ≤ 1 ∧ (0 : Int) ≤ 1 ∧
     (1 : Int).toNat + (1 : Int).toNat
       ≤ (sampleState.stores
           (sampleState.bufferBinding GLTarget.ArrayBuffer.toNat)).length ∧
     (1 : Int).toNat ≤ (bytesOf byteElem [9] ++ []).length) ∧
    (∃ c, buffer_sub_data byteElem GLTarget.ArrayBuffer 1 1 [9] []
        = Except.ok c ∧
      ((applyCall sampleState c).stores
          (sampleState.bufferBinding GLTarget.ArrayBuffer.toNat)).length
        = (sampleState.stores
            (sampleState.bufferBinding GLTarget.ArrayBuffer.toNat)).length ∧
      (∀ i : Nat, i < (1 : Int).toNat →
        ((applyCall sampleState c).stores
            (sampleState.bufferBinding GLTarget.ArrayBuffer.toNat)).getD i 0
          = (sampleState.stores
              (sampleState.bufferBinding GLTarget.ArrayBuffer.toNat)).getD i 0) ∧
      (∀ i : Nat, (1 : Int).toNat + (1 : Int).toNat ≤ i →
        ((applyCall sampleState c).stores
            (sampleState.bufferBinding GLTarget.ArrayBuffer.toNat)).getD i 0
          = (sampleState.stores
              (sampleState.bufferBinding GLTarget.ArrayBuffer.toNat)).getD i 0) ∧
      (∀ n : Nat, n ≠ sampleState.bufferBinding GLTarget.ArrayBuffer.toNat →
        (applyCall sampleState c).stores n = sampleState.stores n)) :=
  ⟨⟨by decide, by decide, by decide, by decide, by decide⟩,
   buffer_sub_data_frame Nat byteElem GLTarget.ArrayBuffer 1 1 [9] []
     sampleState (by decide) (by decide) (by decide) (by decide) (by decide)⟩

/-- Claim C4: for every target, unbind_buffer issues exactly the call
bind_buffer issues for the zero handle, so the two have the same effect
on any driver state. -/
theorem unbind_buffer_eq_bind_buffer_zero (target : GLTarget) :
    unbind_buffer target = bind_buffer target 0 ∧
    ∀ s : DriverState,
      applyCall s (unbind_buffer target) = applyCall s (bind_buffer target 0) :=
  ⟨rfl, fun _ => rfl⟩

/-- Claim C5: each single-handle convenience generator equals the N-handle
generation call with count 1: starting from any driver state and any
non-empty output region, it produces the same driver state and returns by
value the identifier the count-based call writes into the region's first
slot; exactly one fresh name is consumed from the corresponding supply. -/
theorem gen_single_eq_gen_count_one (s : DriverState) (regionV regionB : List Nat)
    (hV : regionV ≠ []) (hB : regionB ≠ []) :
    gen_vertex_array s
      = ((gen_vertex_arrays s 1 regionV).1,
         (gen_vertex_arrays s 1 regionV).2.headD 0) ∧
    gen_buffer s
      = ((gen_buffers s 1 regionB).1, (gen_buffers s 1 regionB).2.headD 0) ∧
    (gen_vertex_arrays s 1 regionV).2.headD 0 = s.nextArrayName ∧
    (gen_vertex_arrays s 1 regionV).1.nextArrayName = s.nextArrayName + 1 ∧
    (gen_buffers s 1 regionB).2.headD 0 = s.nextBufferName ∧
    (gen_buffers s 1 regionB).1.nextBufferName = s.nextBufferName + 1 :=
  ⟨rfl, rfl, rfl, rfl, rfl, rfl⟩

theorem gen_single_eq_gen_count_one_witness :
    (([7] : List Nat) ≠ [] ∧ ([9] : List Nat) ≠ []) ∧
    (gen_vertex_array sampleState
       = ((gen_vertex_arrays sampleState 1 [7]).1,
          (gen_vertex_arrays sampleState 1 [7]).2.headD 0) ∧
     gen_buffer sampleState
       = ((gen_buffers sampleState 1 [9]).1,
          (gen_buffers sampleState 1 [9]).2.headD 0) ∧
     (gen_vertex_arrays sampleState 1 [7]).2.headD 0 = sampleState.nextArrayName ∧
     (gen_vertex_arrays sampleState 1 [7]).1.nextArrayName
       = sampleState.nextArrayName + 1 ∧
     (gen_buffers sampleState 1 [9]).2.headD 0 = sampleState.nextBufferName ∧
     (gen_buffers sampleState 1 [9]).1.nextBufferName
       = sampleState.nextBufferName + 1) :=
  ⟨⟨by decide, by decide⟩,
   gen_single_eq_gen_count_one sampleState [7] [9] (by decide) (by decide)⟩

/-- Claim C6: for every index, component count, element type,
normalization flag and stride, vertex_attrib_pointer passes the driver a
zero (null) byte offset as the pointer argument — no offset parameter
exists, so no call produces a non-zero offset — and the attribute
configuration recorded by the driver carries offset 0. -/
theorem vertex_attrib_pointer_zero_offset (index : Nat) (size : Int)
    (ty : GLType) (normalised : Bool) (stride : Int) (s : DriverState) :
    callPointerArg (vertex_attrib_pointer index size ty normalised stride) = 0 ∧
    ∃ cfg,
      (applyCall s (vertex_attrib_pointer index size ty normalised stride)).attribs
          index = some cfg ∧
      cfg.pointer = 0 := by
  refine ⟨rfl, AttribConfig.mk size ty.toNat (if normalised then 1 else 0) stride
    (s.bufferBinding ARRAY_BUFFER) 0, ?_, rfl⟩
  simp [vertex_attrib_pointer, applyCall]

/-- Claim C7: the Target enumeration has exactly one value, ArrayBuffer,
whose cast is the native code gl::ARRAY_BUFFER = 0x8892, and the Usage
enumeration has exactly one value, StaticDraw, whose cast is the native
code gl::STATIC_DRAW = 0x88E4. -/
theorem enums_single_variant_native_codes :
    (∀ t : GLTarget, t = GLTarget.ArrayBuffer) ∧
    GLTarget.toNat GLTarget.ArrayBuffer = 0x8892 ∧
    (∀ u : GLUsage, u = GLUsage.StaticDraw) ∧
    GLUsage.toNat GLUsage.StaticDraw = 0x88E4 :=
  ⟨fun t => by cases t; rfl, rfl, fun u => by cases u; rfl, rfl⟩

/-- Claim C8: buffer_sub_data also dereferences the first element of its
data sequence, so on an empty sequence it reaches the error branch of the
embedding with exactly the same failure buffer_data reaches, for every
offset, size and usage. -/
theorem buffer_sub_data_empty_fails_like_buffer_data (τ : Type) (E : ElemType τ)
    (target : GLTarget) (offset size : Int) (tailMem : List Nat) :
    ∃ msg, buffer_sub_data E target offset size ([] : List τ) tailMem
        = Except.error msg ∧
      ∀ usage : GLUsage, buffer_data E target ([] : List τ) usage
        = Except.error msg :=
  ⟨_, rfl, fun _ => rfl⟩

/-- Claim C9: buffer_sub_data forwards the caller-supplied byte size to
the driver unchanged — for every size (negative or larger than the data
sequence's byte length included, since no check is performed) the size
argument of the issued call equals the size argument of the wrapper. -/
theorem buffer_sub_data_forwards_size (τ : Type) (E : ElemType τ)
    (target : GLTarget) (offset size : Int) (data : List τ)
    (tailMem : List Nat) (h : data ≠ []) :
    ∃ c, buffer_sub_data E target offset size data tailMem = Except.ok c ∧
      callSizeArg c = size := by
  cases data with
  | nil => exact absurd rfl h
  | cons x xs => exact ⟨_, rfl, rfl⟩

theorem buffer_sub_data_forwards_size_witness :
    ([3] : List Nat) ≠ [] ∧
    ∃ c, buffer_sub_data byteElem GLTarget.ArrayBuffer 2 (-7) [3] []
        = Except.ok c ∧
      callSizeArg c = -7 :=
  ⟨by decide,
   buffer_sub_data_forwards_size Nat byteElem GLTarget.ArrayBuffer 2 (-7) [3] []
     (by decide)⟩

/-- Claim C10: no deletion call modifies the caller-held handle values:
delete_buffers, delete_vertex_arrays and delete_vertex_array leave the
caller's region exactly as it was, and delete_buffer leaves the caller's
copied handle value intact — none resets a handle to the zero sentinel. -/
theorem delete_calls_preserve_caller_handles (s : DriverState) (count : Nat)
    (region : List Nat) (buffer : Nat) :
    (delete_buffers s count region).2 = region ∧
    (delete_vertex_arrays s count region).2 = region ∧
    (delete_vertex_array s region).2 = region ∧
    (delete_buffer s buffer).2 = buffer :=
  ⟨rfl, rfl, rfl, rfl⟩

end RustyGl
